import Mathlib

/-!
Shallow embedding of `app.py` (an audio-to-video generator UI script).

Text values (prompts, paths, messages) are modelled as `List Char`, mirroring
Python strings as sequences of code points; byte payloads as `List Nat`.
External I/O (the HTTP layer, the moviepy compositing library, the temp-file
allocator) is modelled by explicit oracle arguments and an effect trace, so
every function is total and executable.
-/

set_option autoImplicit false
set_option maxRecDepth 4096

namespace AppPy

/-- Python `s.split('x')` on a character list: splitting on a single character,
keeping empty segments (so `"x512"` splits to `["", "512"]`). -/
def splitOnChar (c : Char) : List Char → List (List Char)
  | [] => [[]]
  | x :: xs =>
    if x = c then [] :: splitOnChar c xs
    else
      match splitOnChar c xs with
      | [] => [[x]]
      | y :: ys => (x :: y) :: ys

/-- Value of a decimal digit character, `none` for non-digits. -/
def digitVal (c : Char) : Option Nat :=
  if c.isDigit then some (c.toNat - 48) else none

/-- Parse a nonempty all-digit character list as a natural number. -/
def parseNatDigits : List Char → Option Nat
  | [] => none
  | [c] => digitVal c
  | c :: cs =>
    match digitVal c, parseNatDigits cs with
    | some d, some n => some (d * 10 ^ cs.length + n)
    | _, _ => none

/-- Python `int(s)` on a character list: optional leading minus sign followed
by decimal digits; `none` models the `ValueError` raised otherwise. -/
def parseInt : List Char → Option Int
  | '-' :: rest => (parseNatDigits rest).map (fun n => -(n : Int))
  | s => (parseNatDigits s).map Int.ofNat

/-- `width, height = map(int, settings["resolution"].split('x'))` from
`generate_video_huggingface` (app.py line 172): succeeds only when the split
yields exactly two integer-parsable parts; `none` models the raised exception. -/
def parseResolution (s : List Char) : Option (Int × Int) :=
  match (splitOnChar 'x' s).map parseInt with
  | [some w, some h] => some (w, h)
  | _ => none

/-- The settings dictionary assembled by `setup_sidebar` (app.py lines 68-73). -/
structure Settings where
  style : List Char
  duration : Int
  resolution : List Char
  creativity : ℚ
  deriving DecidableEq

/-- `moviepy.editor.ColorClip(size=..., color=..., duration=...)` as constructed
at app.py lines 176-180. -/
structure ColorClipData where
  size : Int × Int
  color : Nat × Nat × Nat
  duration : Int
  deriving DecidableEq

/-- `moviepy.editor.TextClip(...)` with `.set_duration(...)` and
`.set_position('center')` as constructed at app.py lines 185-191. -/
structure TextClipData where
  text : List Char
  fontsize : Nat
  color : List Char
  font : List Char
  size : Int × Int
  duration : Int
  position : List Char
  deriving DecidableEq

/-- `CompositeVideoClip([background, text_clip])` from app.py line 194. -/
structure CompositeData where
  background : ColorClipData
  textClip : TextClipData
  deriving DecidableEq

/-- `text_content = f"AI Generated Video\n\nPrompt: {prompt[:100]}..."`
(app.py line 183). -/
def text_content (prompt : List Char) : List Char :=
  ("AI Generated Video\n\nPrompt: ").toList ++ prompt.take 100 ++ ("...").toList

/-- The clip-construction portion of `generate_video_huggingface`
(app.py lines 172-194): parse the resolution, build the background color clip
and the centered text overlay, and composite them. A parse failure raises,
modelled by `Except.error`. -/
def buildVideo (prompt : List Char) (settings : Settings) :
    Except (List Char) CompositeData :=
  match parseResolution settings.resolution with
  | none => Except.error (("resolution parse error").toList)
  | some (w, h) =>
    Except.ok
      { background := { size := (w, h), color := (45, 25, 85), duration := settings.duration }
        textClip :=
          { text := text_content prompt, fontsize := 24, color := ("white").toList
            font := ("Arial-Bold").toList, size := (w - 100, h - 100)
            duration := settings.duration, position := ("center").toList } }

/-- Modelled from the spec: `video.write_videofile(...)` (app.py lines 198-203)
calls the external moviepy encoder, whose code is not part of this repository.
Per the spec, encoding fails for invalid dimensions (width or height ≤ 0);
a raised exception is modelled by `Except.error`. -/
def writeVideofileResult (v : CompositeData) : Except (List Char) Unit :=
  if v.background.size.1 ≤ 0 ∨ v.background.size.2 ≤ 0 then
    Except.error (("invalid dimensions").toList)
  else Except.ok ()

/-- `tempfile.NamedTemporaryFile(delete=False, suffix=...)`: the OS picks a
fresh name in the temporary directory, modelled by an id chosen by the caller
environment. -/
def namedTempFile (tmpId : Nat) (ext : List Char) : List Char :=
  ("/tmp/tmp").toList ++ (toString tmpId).toList ++ ext

/-- What a file written during an invocation contains. -/
inductive FileContent where
  | video (v : CompositeData)
  | bytes (bs : List Nat)
  | text (s : List Char)
  deriving DecidableEq

/-- Observable side effects of one invocation. -/
inductive Effect where
  | fileWrite (path : List Char) (content : FileContent)
  | network (url : List Char)
  | globalMutate
  | uiError (msg : List Char)
  deriving DecidableEq

/-- Whether an effect is a file write. -/
def Effect.isFileWrite : Effect → Bool
  | .fileWrite _ _ => true
  | _ => false

/-- Whether an effect is a network access. -/
def Effect.isNetwork : Effect → Bool
  | .network _ => true
  | _ => false

/-- Whether an effect is a mutation of global state. -/
def Effect.isGlobalMutate : Effect → Bool
  | .globalMutate => true
  | _ => false

/-- An HTTP response as seen by the two API wrappers: a status code and the raw
body bytes (`response.content`). -/
structure HttpResponse where
  status : Nat
  content : List Nat
  deriving DecidableEq

/-- `response.raise_for_status()`: raises `HTTPError` for status codes ≥ 400. -/
def raiseForStatus (r : HttpResponse) : Except (List Char) HttpResponse :=
  if 400 ≤ r.status then Except.error (("HTTPError").toList) else Except.ok r

/-- Endpoint used by `generate_video_runway` (app.py line 100). -/
def runwayUrl : List Char :=
  ("https://api.runwayml.com/v1/video/generate").toList

/-- Endpoint used by `generate_video_stability` (app.py line 134). -/
def stabilityUrl : List Char :=
  ("https://api.stability.ai/v2beta/image-to-video").toList

/-- `generate_video_runway` (app.py lines 96-128). The outcome of
`requests.post` is an oracle argument: `Except.error` models a raised requests
exception. On success past `raise_for_status`, the response body bytes are
written verbatim to a fresh `.mp4` temp file and its path returned; any
exception is caught by the single `except` clause, surfaced as a UI error
message, and `None` is returned. -/
def generate_video_runway (prompt : List Char) (settings : Settings)
    (apiKey : List Char) (response : Except (List Char) HttpResponse)
    (tmpId : Nat) : Option (List Char) × List Effect :=
  match response with
  | Except.error e =>
      (none, [Effect.network runwayUrl,
              Effect.uiError (("RunwayML API error: ").toList ++ e)])
  | Except.ok r =>
    match raiseForStatus r with
    | Except.error e =>
        (none, [Effect.network runwayUrl,
                Effect.uiError (("RunwayML API error: ").toList ++ e)])
    | Except.ok r2 =>
      let path := namedTempFile tmpId ((".mp4").toList)
      (some path, [Effect.network runwayUrl,
                   Effect.fileWrite path (FileContent.bytes r2.content)])

/-- `generate_video_stability` (app.py lines 130-160): identical error shape to
the RunwayML wrapper, with its own endpoint and error-message prefix. -/
def generate_video_stability (prompt : List Char) (settings : Settings)
    (apiKey : List Char) (response : Except (List Char) HttpResponse)
    (tmpId : Nat) : Option (List Char) × List Effect :=
  match response with
  | Except.error e =>
      (none, [Effect.network stabilityUrl,
              Effect.uiError (("Stability AI API error: ").toList ++ e)])
  | Except.ok r =>
    match raiseForStatus r with
    | Except.error e =>
        (none, [Effect.network stabilityUrl,
                Effect.uiError (("Stability AI API error: ").toList ++ e)])
    | Except.ok r2 =>
      let path := namedTempFile tmpId ((".mp4").toList)
      (some path, [Effect.network stabilityUrl,
                   Effect.fileWrite path (FileContent.bytes r2.content)])

/-- `generate_video_huggingface` (app.py lines 162-212). The availability of
the moviepy import is an oracle flag: when absent, the `except ImportError`
clause shows an install hint and returns `None` (app.py lines 207-209). When
present, the clips are constructed and encoded to a fresh `.mp4` temp file;
any other exception (resolution parse failure, encoder failure) is caught by
the final `except Exception` clause, surfaced as a UI error message, and
`None` is returned (app.py lines 210-212). -/
def generate_video_huggingface (moviepyAvailable : Bool) (prompt : List Char)
    (settings : Settings) (tmpId : Nat) : Option (List Char) × List Effect :=
  if moviepyAvailable then
    match buildVideo prompt settings with
    | Except.error e =>
        (none, [Effect.uiError (("Hugging Face demo error: ").toList ++ e)])
    | Except.ok v =>
      match writeVideofileResult v with
      | Except.error e =>
          (none, [Effect.uiError (("Hugging Face demo error: ").toList ++ e)])
      | Except.ok _ =>
        let path := namedTempFile tmpId ((".mp4").toList)
        (some path, [Effect.fileWrite path (FileContent.video v)])
  else
    (none, [Effect.uiError
      (("MoviePy required for demo videos. Install with: pip install moviepy").toList)])

/-- `transcribe_audio` (app.py lines 75-94): writes the audio to a temp file,
ignores it, and returns a hard-coded string; if the file I/O raises (the
oracle flag `ioFails`), the `except` clause returns the other hard-coded
string. The `api_key` parameter is accepted and unused, as in the source. -/
def transcribe_audio (audioFile : List Nat) (apiKey : Option (List Char))
    (ioFails : Bool) : List Char :=
  if ioFails then
    ("A creative video showcasing technology and innovation.").toList
  else
    ("A person narrating a story about creating amazing videos with artificial intelligence.").toList

/-- `final_prompt = f"{video_prompt}. Audio context: {transcription}" if video_prompt else transcription`
(app.py line 271); Python truthiness of a string is nonemptiness. -/
def finalPrompt (videoPrompt transcription : List Char) : List Char :=
  if videoPrompt.isEmpty then transcription
  else videoPrompt ++ (". Audio context: ").toList ++ transcription

/-- `st.slider(label, lo, hi, dflt)` with integer arguments: the widget yields
`dflt` untouched and clamps any user choice into `[lo, hi]`. -/
def sliderInt (lo hi dflt : Int) (choice : Option Int) : Int :=
  match choice with
  | none => dflt
  | some v => if v < lo then lo else if hi < v then hi else v

/-- `st.slider(label, lo, hi, dflt)` with fractional arguments. -/
def sliderRat (lo hi dflt : ℚ) (choice : Option ℚ) : ℚ :=
  match choice with
  | none => dflt
  | some v => if v < lo then lo else if hi < v then hi else v

/-- `st.selectbox(label, options)`: yields an element of the option list, the
first by default. -/
def selectbox (options : List (List Char)) (choice : Nat) : List Char :=
  options.getD choice (options.headD [])

/-- The sidebar form state a user can reach: widget choices, `none` meaning
the widget was left at its default. -/
structure UIChoices where
  apiChoice : Nat
  apiKeyInput : List Char
  styleChoice : Nat
  durationChoice : Option Int
  resolutionChoice : Nat
  creativityChoice : Option ℚ
  deriving DecidableEq

/-- The API selectbox options (app.py lines 22-26). -/
def apiOptions : List (List Char) :=
  [("RunwayML").toList, ("Stability AI").toList, ("Hugging Face (Demo)").toList]

/-- The style selectbox options (app.py lines 53-56). -/
def styleOptions : List (List Char) :=
  [("Realistic").toList, ("Cinematic").toList, ("Animated").toList,
   ("Artistic").toList, ("Documentary").toList, ("Fantasy").toList]

/-- The resolution selectbox options (app.py lines 60-63). -/
def resolutionOptions : List (List Char) :=
  [("512x512").toList, ("768x768").toList, ("1024x1024").toList]

/-- `setup_sidebar` (app.py lines 28-73): returns the selected API name, the
entered API key, and the settings dictionary, with the duration slider bounds
2 and 10 and default 4 (app.py line 58). -/
def setup_sidebar (ui : UIChoices) : List Char × List Char × Settings :=
  (selectbox apiOptions ui.apiChoice, ui.apiKeyInput,
    { style := selectbox styleOptions ui.styleChoice
      duration := sliderInt 2 10 4 ui.durationChoice
      resolution := selectbox resolutionOptions ui.resolutionChoice
      creativity := sliderRat (1 / 10) 1 (7 / 10) ui.creativityChoice })

/-- Settings as produced by the sidebar defaults, used for concrete witnesses. -/
def demoSettings : Settings :=
  { style := ("Realistic").toList, duration := 4
    resolution := ("512x512").toList, creativity := 7 / 10 }

end AppPy

namespace AppPy

/-- The sidebar form state with every widget left at its default. -/
def demoUI : UIChoices :=
  { apiChoice := 2, apiKeyInput := [], styleChoice := 0
    durationChoice := none, resolutionChoice := 0, creativityChoice := none }

/-- Settings with a malformed resolution string whose parsed width is 0. -/
def badSettings : Settings :=
  { style := ("Realistic").toList, duration := 4
    resolution := ("0x512").toList, creativity := 7 / 10 }

/-- The composite clip built from the empty prompt under `demoSettings`. -/
def demoVideo : CompositeData :=
  { background := { size := (512, 512), color := (45, 25, 85), duration := 4 }
    textClip :=
      { text := ("AI Generated Video\n\nPrompt: ...").toList, fontsize := 24
        color := ("white").toList, font := ("Arial-Bold").toList, size := (412, 412)
        duration := 4, position := ("center").toList } }

/-- Both layers built by `buildVideo` carry the settings duration. -/
theorem buildVideo_durations {p : List Char} {s : Settings} {v : CompositeData}
    (hv : buildVideo p s = Except.ok v) :
    v.background.duration = s.duration ∧ v.textClip.duration = s.duration := by
  unfold buildVideo at hv
  cases hpr : parseResolution s.resolution with
  | none => rw [hpr] at hv; exact absurd hv (by simp)
  | some wh =>
    obtain ⟨w, h⟩ := wh
    rw [hpr] at hv
    simp only [Except.ok.injEq] at hv
    subst hv
    exact ⟨rfl, rfl⟩

/-- Inversion of a successful `generate_video_huggingface` run: the clip built
from the prompt and settings was encoded, the returned path is the fresh
`.mp4` temp file, and the effect trace is that single file write. -/
theorem hf_success {p : List Char} {s : Settings} {t : Nat} {path : List Char}
    {effs : List Effect}
    (hrun : generate_video_huggingface true p s t = (some path, effs)) :
    ∃ v, buildVideo p s = Except.ok v ∧
      path = namedTempFile t ((".mp4").toList) ∧
      effs = [Effect.fileWrite path (FileContent.video v)] := by
  unfold generate_video_huggingface at hrun
  rw [if_pos rfl] at hrun
  split at hrun
  · exact absurd hrun (by simp)
  · rename_i v hb
    split at hrun
    · exact absurd hrun (by simp)
    · simp only [Prod.mk.injEq, Option.some.injEq] at hrun
      obtain ⟨hpath, heffs⟩ := hrun
      exact ⟨v, hb, hpath.symm, by rw [← heffs, hpath]⟩

/-- Claim C1 counterexample: with the compositing library absent, at the
concrete input "hello" the synthesizer returns `None` together with an
install-hint error message — it does not return a path to a `.txt` file
containing the original text (no file is produced at all). -/
theorem hf_no_txt_fallback_counterexample :
    generate_video_huggingface false (("hello").toList) demoSettings 0 =
      (none, [Effect.uiError
        (("MoviePy required for demo videos. Install with: pip install moviepy").toList)]) := rfl

/-- Claim C1 (amended): for every input text, when the compositing capability
is absent, `generate_video_huggingface` catches the `ImportError`, surfaces an
install-hint message, writes no file, and returns `None`; no exception
propagates past that handler. -/
theorem hf_import_error_returns_none (p : List Char) (s : Settings) (t : Nat) :
    generate_video_huggingface false p s t =
      (none, [Effect.uiError
        (("MoviePy required for demo videos. Install with: pip install moviepy").toList)]) := rfl

/-- Claim C2 counterexample: at an input of 250 characters (longer than the
claimed ~200-character threshold), the rendered overlay text is not a prefix
of the input — it is a fixed template with the truncated prompt embedded. -/
theorem overlay_not_prefix_counterexample :
    200 < (List.replicate 250 'a').length ∧
    ¬ List.IsPrefix (text_content (List.replicate 250 'a')) (List.replicate 250 'a') := by
  constructor
  · decide
  · decide

/-- Claim C2 (amended): for every input longer than 100 characters (the actual
truncation threshold, not ~200), the overlay is the fixed template
"AI Generated Video\n\nPrompt: " followed by the first 100 characters of the
input and "..."; the input-derived portion is a prefix of the input of bounded
length 100, strictly shorter than the input, so the full string is never
rendered. -/
theorem overlay_truncation (p : List Char) (hlen : 100 < p.length) :
    text_content p =
      ("AI Generated Video\n\nPrompt: ").toList ++ p.take 100 ++ ("...").toList ∧
    List.IsPrefix (p.take 100) p ∧
    (p.take 100).length = 100 ∧ (p.take 100).length < p.length := by
  refine ⟨rfl, List.take_prefix _ _, ?_, ?_⟩ <;> rw [List.length_take] <;> omega

/-- Claim C2 witness: the amended statement evaluated at a concrete
150-character input. -/
theorem overlay_truncation_witness :
    text_content (List.replicate 150 'a') =
      ("AI Generated Video\n\nPrompt: ").toList ++
        (List.replicate 150 'a').take 100 ++ ("...").toList ∧
    List.IsPrefix ((List.replicate 150 'a').take 100) (List.replicate 150 'a') ∧
    ((List.replicate 150 'a').take 100).length = 100 ∧
    ((List.replicate 150 'a').take 100).length < (List.replicate 150 'a').length :=
  overlay_truncation (List.replicate 150 'a') (by decide)

/-- Claim C4: for every audio input, api key, and I/O outcome, the
transcription stub returns one of exactly two fixed literal strings, and the
returned string does not depend on the audio content. -/
theorem transcribe_audio_stub (a : List Nat) (k : Option (List Char)) (e : Bool) :
    (transcribe_audio a k e =
        ("A person narrating a story about creating amazing videos with artificial intelligence.").toList ∨
      transcribe_audio a k e =
        ("A creative video showcasing technology and innovation.").toList) ∧
    ∀ a2 : List Nat, transcribe_audio a k e = transcribe_audio a2 k e := by
  cases e with
  | false => exact ⟨Or.inl rfl, fun _ => rfl⟩
  | true => exact ⟨Or.inr rfl, fun _ => rfl⟩

/-- Claim C9: the final prompt equals the user description followed by
". Audio context: " and the transcription when the description is nonempty,
and equals the transcription alone when the description is empty. -/
theorem final_prompt_formula (p t : List Char) :
    (p ≠ [] → finalPrompt p t = p ++ (". Audio context: ").toList ++ t) ∧
    (p = [] → finalPrompt p t = t) := by
  constructor
  · intro h
    rw [finalPrompt, if_neg]
    simp [h]
  · intro h
    subst h
    rfl

/-- Claim C9 witness: the formula evaluated at a concrete nonempty description. -/
theorem final_prompt_formula_witness :
    finalPrompt (("x").toList) (("t").toList) =
      ("x").toList ++ (". Audio context: ").toList ++ ("t").toList :=
  (final_prompt_formula (("x").toList) (("t").toList)).1 (by decide)

/-- Claim C10: for every reachable sidebar state, the duration in the settings
passed on to the video-generation functions is an integer in [2, 10], and it
is 4 when the slider is left at its default. -/
theorem sidebar_duration_bounds (ui : UIChoices) :
    2 ≤ (setup_sidebar ui).2.2.duration ∧ (setup_sidebar ui).2.2.duration ≤ 10 ∧
    (ui.durationChoice = none → (setup_sidebar ui).2.2.duration = 4) := by
  unfold setup_sidebar sliderInt
  cases hc : ui.durationChoice with
  | none => simp
  | some v =>
    simp only [hc, Option.some.injEq]
    refine ⟨?_, ?_, ?_⟩
    · split
      · omega
      · split <;> omega
    · split
      · omega
      · split <;> omega
    · intro h
      exact absurd h (by simp)

/-- Claim C10 witness: the bounds and the default evaluated at the default
sidebar state. -/
theorem sidebar_duration_bounds_witness :
    2 ≤ (setup_sidebar demoUI).2.2.duration ∧
    (setup_sidebar demoUI).2.2.duration ≤ 10 ∧
    (setup_sidebar demoUI).2.2.duration = 4 :=
  ⟨(sidebar_duration_bounds demoUI).1, (sidebar_duration_bounds demoUI).2.1,
   (sidebar_duration_bounds demoUI).2.2 rfl⟩

/-- Claim C3: for every duration d in [1, 60] and every text string, when the
compositing capability is present and the run succeeds, the video recorded in
the produced file has both its background layer and its text overlay
constructed with duration exactly d. -/
theorem hf_layer_durations (d : Int) (p : List Char) (s : Settings) (t : Nat)
    (path : List Char) (effs : List Effect) (v : CompositeData)
    (hd : s.duration = d) (h1 : 1 ≤ d) (h60 : d ≤ 60)
    (hrun : generate_video_huggingface true p s t = (some path, effs))
    (hmem : Effect.fileWrite path (FileContent.video v) ∈ effs) :
    v.background.duration = d ∧ v.textClip.duration = d := by
  obtain ⟨v2, hb, hpath, heffs⟩ := hf_success hrun
  subst heffs
  have hv : v = v2 := by
    have h := List.mem_singleton.mp hmem
    simp only [Effect.fileWrite.injEq, FileContent.video.injEq, true_and] at h
    exact h
  subst hv
  rw [← hd]
  exact buildVideo_durations hb

/-- Claim C3 witness: the duration property evaluated at duration 4 with the
default settings and the empty prompt. -/
theorem hf_layer_durations_witness :
    demoVideo.background.duration = 4 ∧ demoVideo.textClip.duration = 4 :=
  hf_layer_durations 4 [] demoSettings 0 (namedTempFile 0 ((".mp4").toList))
    [Effect.fileWrite (namedTempFile 0 ((".mp4").toList)) (FileContent.video demoVideo)]
    demoVideo rfl (by decide) (by decide) rfl (by decide)

/-- Claim C5: each external-call wrapper catches any failure of its body
internally and returns `None`: a raised requests exception or an HTTP error
status in either HTTP wrapper, and a missing import, a resolution parse
failure, or an encoder failure in the placeholder synthesizer, all yield
`None` rather than a propagated exception (each wrapper is a total function
into `Option`). -/
theorem wrappers_catch_failures :
    (∀ p s k e t, (generate_video_runway p s k (Except.error e) t).fst = none) ∧
    (∀ p s k r t, 400 ≤ r.status →
      (generate_video_runway p s k (Except.ok r) t).fst = none) ∧
    (∀ p s k e t, (generate_video_stability p s k (Except.error e) t).fst = none) ∧
    (∀ p s k r t, 400 ≤ r.status →
      (generate_video_stability p s k (Except.ok r) t).fst = none) ∧
    (∀ p s t, (generate_video_huggingface false p s t).fst = none) ∧
    (∀ p s t e, buildVideo p s = Except.error e →
      (generate_video_huggingface true p s t).fst = none) ∧
    (∀ p s t v e, buildVideo p s = Except.ok v →
      writeVideofileResult v = Except.error e →
      (generate_video_huggingface true p s t).fst = none) := by
  refine ⟨fun p s k e t => rfl, fun p s k r t h => ?_, fun p s k e t => rfl,
    fun p s k r t h => ?_, fun p s t => rfl, fun p s t e hb => ?_,
    fun p s t v e hb hw => ?_⟩
  · simp [generate_video_runway, raiseForStatus, h]
  · simp [generate_video_stability, raiseForStatus, h]
  · simp [generate_video_huggingface, hb]
  · simp [generate_video_huggingface, hb, hw]

/-- Claim C5 witness: the RunwayML wrapper evaluated at a concrete 404
response returns `None`. -/
theorem wrappers_catch_failures_witness :
    (generate_video_runway [] demoSettings []
      (Except.ok (HttpResponse.mk 404 [])) 0).fst = none :=
  wrappers_catch_failures.2.1 [] demoSettings [] (HttpResponse.mk 404 []) 0 (by decide)

/-- Claim C6: for every resolution that parses to a nonpositive width or
height, the synthesizer fails — the encoder error is caught, surfaced as a
UI error message, and no output file path is returned. -/
theorem hf_invalid_dimensions (p : List Char) (s : Settings) (t : Nat)
    (w h : Int) (hpr : parseResolution s.resolution = some (w, h))
    (hbad : w ≤ 0 ∨ h ≤ 0) :
    generate_video_huggingface true p s t =
      (none, [Effect.uiError
        (("Hugging Face demo error: ").toList ++ ("invalid dimensions").toList)]) := by
  simp [generate_video_huggingface, buildVideo, hpr, writeVideofileResult, hbad]

/-- Claim C6 witness: the failure evaluated at the concrete resolution
"0x512", whose parsed width is 0. -/
theorem hf_invalid_dimensions_witness :
    generate_video_huggingface true [] badSettings 0 =
      (none, [Effect.uiError
        (("Hugging Face demo error: ").toList ++ ("invalid dimensions").toList)]) :=
  hf_invalid_dimensions [] badSettings 0 0 512 (by decide) (Or.inl (by decide))

/-- Claim C7: for every successful HTTP call (response delivered with status
below 400), both HTTP wrappers write exactly the raw response body bytes,
verbatim, to the returned file path. -/
theorem http_body_written_verbatim (p : List Char) (s : Settings)
    (k : List Char) (r : HttpResponse) (t : Nat) (hok : r.status < 400) :
    generate_video_runway p s k (Except.ok r) t =
      (some (namedTempFile t ((".mp4").toList)),
       [Effect.network runwayUrl,
        Effect.fileWrite (namedTempFile t ((".mp4").toList))
          (FileContent.bytes r.content)]) ∧
    generate_video_stability p s k (Except.ok r) t =
      (some (namedTempFile t ((".mp4").toList)),
       [Effect.network stabilityUrl,
        Effect.fileWrite (namedTempFile t ((".mp4").toList))
          (FileContent.bytes r.content)]) := by
  have hn : ¬ 400 ≤ r.status := Nat.not_le.mpr hok
  constructor
  · simp [generate_video_runway, raiseForStatus, hn]
  · simp [generate_video_stability, raiseForStatus, hn]

/-- Claim C7 witness: both wrappers evaluated at a concrete 200 response with
body bytes [1, 2, 3]. -/
theorem http_body_written_verbatim_witness :
    generate_video_runway [] demoSettings []
      (Except.ok (HttpResponse.mk 200 [1, 2, 3])) 0 =
      (some (namedTempFile 0 ((".mp4").toList)),
       [Effect.network runwayUrl,
        Effect.fileWrite (namedTempFile 0 ((".mp4").toList))
          (FileContent.bytes [1, 2, 3])]) ∧
    generate_video_stability [] demoSettings []
      (Except.ok (HttpResponse.mk 200 [1, 2, 3])) 0 =
      (some (namedTempFile 0 ((".mp4").toList)),
       [Effect.network stabilityUrl,
        Effect.fileWrite (namedTempFile 0 ((".mp4").toList))
          (FileContent.bytes [1, 2, 3])]) :=
  http_body_written_verbatim [] demoSettings [] (HttpResponse.mk 200 [1, 2, 3]) 0
    (by decide)

/-- Claim C8: every successful invocation of the placeholder synthesizer
writes exactly one file, whose path is the fresh name in the temporary
directory, and its effect trace contains no network access and no mutation of
global state. -/
theorem hf_single_temp_write_no_network (p : List Char) (s : Settings)
    (t : Nat) (path : List Char) (effs : List Effect)
    (hrun : generate_video_huggingface true p s t = (some path, effs)) :
    (∃ v, effs = [Effect.fileWrite path (FileContent.video v)]) ∧
    (effs.filter Effect.isFileWrite).length = 1 ∧
    effs.all (fun e => !e.isNetwork) = true ∧
    effs.all (fun e => !e.isGlobalMutate) = true ∧
    path = namedTempFile t ((".mp4").toList) ∧
    List.IsPrefix (("/tmp/").toList) path := by
  obtain ⟨v, hb, hpath, heffs⟩ := hf_success hrun
  subst heffs
  subst hpath
  refine ⟨⟨v, rfl⟩, rfl, rfl, rfl, rfl, ?_⟩
  refine ⟨("tmp").toList ++ ((toString t).toList ++ (".mp4").toList), ?_⟩
  have hcat : ("/tmp/").toList ++ ("tmp").toList = ("/tmp/tmp").toList := by decide
  rw [← List.append_assoc, hcat, namedTempFile, List.append_assoc]

/-- Claim C8 witness: the frame conditions evaluated on the concrete
successful run with the default settings and the empty prompt. -/
theorem hf_single_temp_write_no_network_witness :
    (∃ v, [Effect.fileWrite (namedTempFile 0 ((".mp4").toList))
        (FileContent.video demoVideo)] =
      [Effect.fileWrite (namedTempFile 0 ((".mp4").toList))
        (FileContent.video v)]) ∧
    (([Effect.fileWrite (namedTempFile 0 ((".mp4").toList))
        (FileContent.video demoVideo)]).filter Effect.isFileWrite).length = 1 ∧
    ([Effect.fileWrite (namedTempFile 0 ((".mp4").toList))
        (FileContent.video demoVideo)]).all (fun e => !e.isNetwork) = true ∧
    ([Effect.fileWrite (namedTempFile 0 ((".mp4").toList))
        (FileContent.video demoVideo)]).all (fun e => !e.isGlobalMutate) = true ∧
    namedTempFile 0 ((".mp4").toList) = namedTempFile 0 ((".mp4").toList) ∧
    List.IsPrefix (("/tmp/").toList) (namedTempFile 0 ((".mp4").toList)) :=
  hf_single_temp_write_no_network [] demoSettings 0
    (namedTempFile 0 ((".mp4").toList))
    [Effect.fileWrite (namedTempFile 0 ((".mp4").toList))
      (FileContent.video demoVideo)] rfl

end AppPy
